import Mathlib

/-!
Verification of the network-clarity traffic classification and privacy-risk
engine.  The TypeScript sources are shallowly embedded: JavaScript strings
become `List Char`, JavaScript numbers become `Nat`/`Int` (and `ℚ` where the
source divides), `Map`s become functions into `Option`, and every function is
translated statement by statement from the source file it comes from.
-/

/-- JavaScript strings are modelled as lists of characters. -/
abbrev Str := List Char

/-- Model of `String.prototype.toLowerCase` (ASCII range, as exercised by the
sources).  `Char.toLower` lowers exactly the basic latin letters. -/
def toLowerStr (s : Str) : Str := s.map Char.toLower

/-- Model of `s.split('.')` from `getBaseDomain` / `isTrackerDomain`:
JavaScript `split` on a separator never returns an empty array and keeps
empty segments, e.g. `"".split('.') = [""]` and `".".split('.') = ["", ""]`. -/
def splitOnDot : Str → List Str
  | [] => [[]]
  | c :: rest =>
    match splitOnDot rest with
    | [] => [[]]
    | p :: ps => if c = '.' then [] :: p :: ps else (c :: p) :: ps

/-- Model of `arr.join('.')` on the pieces produced by `split('.')`. -/
def joinDots : List Str → Str
  | [] => []
  | [p] => p
  | p :: q :: ps => p ++ '.' :: joinDots (q :: ps)

/-- Model of `arr.join(sep)` for an arbitrary separator (used by the privacy
score calculator's `trackerDomains.slice(0, 3).join(', ')`). -/
def joinWith (sep : Str) : List Str → Str
  | [] => []
  | [p] => p
  | p :: q :: ps => p ++ sep ++ joinWith sep (q :: ps)

/-- Model of `arr.slice(-n)` for `n ≤ arr.length` (the only way the source
uses negative slices). -/
def lastN (n : Nat) (l : List Str) : List Str := l.drop (l.length - n)

/-- Model of `hostname.replace(/^www\./, '')`: drop a leading `"www."`. -/
def stripWww (s : Str) : Str :=
  if ("www.".toList).isPrefixOf s then s.drop 4 else s

/-! ## src/shared/utils.ts -/

/-- The fixed two-part-suffix list of `getBaseDomain`
(`src/shared/utils.ts`, line 24). -/
def twoPartTLDs : List Str :=
  ["co.uk".toList, "com.au".toList, "co.nz".toList, "co.jp".toList,
   "com.br".toList, "co.in".toList]

/-- `getBaseDomain` (`src/shared/utils.ts`, lines 20–39): lower-case, strip a
leading `www.`, split on `.`; collapse to the last three labels when there are
at least three labels and the last two form a known two-part suffix, else to
the last two labels when there are at least two, else return the original
hostname unchanged. -/
def getBaseDomain (hostname : Str) : Str :=
  let parts := splitOnDot (stripWww (toLowerStr hostname))
  if 3 ≤ parts.length ∧ twoPartTLDs.contains (joinDots (lastN 2 parts)) = true then
    joinDots (lastN 3 parts)
  else if 2 ≤ parts.length then
    joinDots (lastN 2 parts)
  else hostname

/-- `isThirdParty` (`src/shared/utils.ts`, lines 44–53).  `getDomain` wraps the
host environment's `new URL(url).hostname` (returning `''` on a parse
failure), so the URL parser is passed in as a parameter `gd`; every theorem
about `isThirdParty` holds for an arbitrary parser. -/
def isThirdParty (gd : Str → Str) (requestUrl pageUrl : Str) : Bool :=
  let requestDomain := gd requestUrl
  let pageDomain := gd pageUrl
  if requestDomain = [] ∨ pageDomain = [] then false
  else getBaseDomain requestDomain != getBaseDomain pageDomain

/-! ## Basic facts about the string primitives -/

theorem toLower_toLower (c : Char) : c.toLower.toLower = c.toLower := by
  by_cases h : 65 ≤ c.toNat ∧ c.toNat ≤ 90
  · have hd : c.toNat = 65 ∨ c.toNat = 66 ∨ c.toNat = 67 ∨ c.toNat = 68 ∨
        c.toNat = 69 ∨ c.toNat = 70 ∨ c.toNat = 71 ∨ c.toNat = 72 ∨
        c.toNat = 73 ∨ c.toNat = 74 ∨ c.toNat = 75 ∨ c.toNat = 76 ∨
        c.toNat = 77 ∨ c.toNat = 78 ∨ c.toNat = 79 ∨ c.toNat = 80 ∨
        c.toNat = 81 ∨ c.toNat = 82 ∨ c.toNat = 83 ∨ c.toNat = 84 ∨
        c.toNat = 85 ∨ c.toNat = 86 ∨ c.toNat = 87 ∨ c.toNat = 88 ∨
        c.toNat = 89 ∨ c.toNat = 90 := by omega
    rcases hd with h1|h1|h1|h1|h1|h1|h1|h1|h1|h1|h1|h1|h1|
      h1|h1|h1|h1|h1|h1|h1|h1|h1|h1|h1|h1|h1 <;>
      rw [← Char.ofNat_toNat c, h1] <;> decide
  · have hc : c.toLower = c := by
      unfold Char.toLower
      rw [if_neg]
      intro hcon
      exact h ⟨hcon.1, hcon.2⟩
    rw [hc, hc]

theorem splitOnDot_ne_nil (s : Str) : splitOnDot s ≠ [] := by
  cases s with
  | nil => simp [splitOnDot]
  | cons c rest =>
    simp only [splitOnDot]
    cases splitOnDot rest with
    | nil => simp
    | cons p ps =>
      by_cases h : c = '.' <;> simp [h]

theorem not_dot_mem_splitOnDot (s : Str) :
    ∀ p ∈ splitOnDot s, '.' ∉ p := by
  induction s with
  | nil => intro p hp; simp [splitOnDot] at hp; simp [hp]
  | cons c rest ih =>
    intro p hp
    simp only [splitOnDot] at hp
    rcases hsp : splitOnDot rest with _ | ⟨q, qs⟩
    · exact absurd hsp (splitOnDot_ne_nil rest)
    · rw [hsp] at hp
      by_cases hc : c = '.'
      · simp [hc] at hp
        rcases hp with hp | hp | hp
        · simp [hp]
        · exact ih p (by rw [hsp]; exact hp ▸ List.mem_cons_self q qs)
        · exact ih p (by rw [hsp]; exact List.mem_cons_of_mem q hp)
      · simp [hc] at hp
        rcases hp with hp | hp
        · have hq : '.' ∉ q := ih q (by rw [hsp]; exact List.mem_cons_self q qs)
          rw [hp]
          simp [hc, hq]
          intro hcon
          exact hc hcon.symm
        · exact ih p (by rw [hsp]; exact List.mem_cons_of_mem q hp)

theorem mem_of_mem_splitOnDot (s : Str) :
    ∀ p ∈ splitOnDot s, ∀ c ∈ p, c ∈ s := by
  induction s with
  | nil => intro p hp; simp [splitOnDot] at hp; simp [hp]
  | cons a rest ih =>
    intro p hp c hc
    simp only [splitOnDot] at hp
    rcases hsp : splitOnDot rest with _ | ⟨q, qs⟩
    · exact absurd hsp (splitOnDot_ne_nil rest)
    · rw [hsp] at hp
      by_cases ha : a = '.'
      · simp [ha] at hp
        rcases hp with hp | hp | hp
        · rw [hp] at hc; simp at hc
        · exact List.mem_cons_of_mem a
            (ih p (by rw [hsp]; exact hp ▸ List.mem_cons_self q qs) c hc)
        · exact List.mem_cons_of_mem a
            (ih p (by rw [hsp]; exact List.mem_cons_of_mem q hp) c hc)
      · simp [ha] at hp
        rcases hp with hp | hp
        · rw [hp] at hc
          rcases hc with _ | hc
          · exact List.mem_cons_self a rest
          · exact List.mem_cons_of_mem a
              (ih q (by rw [hsp]; exact List.mem_cons_self q qs) c (by assumption))
        · exact List.mem_cons_of_mem a
            (ih p (by rw [hsp]; exact List.mem_cons_of_mem q hp) c hc)

theorem splitOnDot_no_dot (p : Str) (h : '.' ∉ p) : splitOnDot p = [p] := by
  induction p with
  | nil => simp [splitOnDot]
  | cons c rest ih =>
    have hc : c ≠ '.' := by intro hcc; exact h (hcc ▸ List.mem_cons_self c rest)
    have hrest : '.' ∉ rest := fun hm => h (List.mem_cons_of_mem c hm)
    simp only [splitOnDot, ih hrest]
    simp [hc]

theorem splitOnDot_append_dot (p : Str) (t : Str) (h : '.' ∉ p) :
    splitOnDot (p ++ '.' :: t) = p :: splitOnDot t := by
  induction p with
  | nil =>
    simp only [List.nil_append, splitOnDot]
    rcases hsp : splitOnDot t with _ | ⟨q, qs⟩
    · exact absurd hsp (splitOnDot_ne_nil t)
    · simp
  | cons c rest ih =>
    have hc : c ≠ '.' := by intro hcc; exact h (hcc ▸ List.mem_cons_self c rest)
    have hrest : '.' ∉ rest := fun hm => h (List.mem_cons_of_mem c hm)
    simp only [List.cons_append, splitOnDot, List.append_eq]
    rw [ih hrest]
    simp [hc]

theorem splitOnDot_joinDots (ps : List Str) (hne : ps ≠ [])
    (h : ∀ p ∈ ps, '.' ∉ p) : splitOnDot (joinDots ps) = ps := by
  induction ps with
  | nil => exact absurd rfl hne
  | cons p rest ih =>
    cases rest with
    | nil => exact splitOnDot_no_dot p (h p (List.mem_cons_self p []))
    | cons q qs =>
      have hp : '.' ∉ p := h p (List.mem_cons_self p (q :: qs))
      simp only [joinDots, splitOnDot_append_dot p _ hp]
      rw [ih (by simp) (fun r hr => h r (List.mem_cons_of_mem p hr))]

theorem toLowerStr_fixed (s : Str) (h : ∀ c ∈ s, c.toLower = c) :
    toLowerStr s = s := by
  unfold toLowerStr
  rw [List.map_congr_left h]
  simp

theorem stripWww_subset (s : Str) : ∀ c ∈ stripWww s, c ∈ s := by
  unfold stripWww
  split
  · exact fun c hc => List.mem_of_mem_drop hc
  · exact fun c hc => hc

theorem isPrefixOf_www (x r : Str) (hx : '.' ∉ x) :
    ("www.".toList).isPrefixOf (x ++ '.' :: r) = true ↔ x = "www".toList := by
  rcases x with _ | ⟨a, _ | ⟨b, _ | ⟨c, _ | ⟨d, xs⟩⟩⟩⟩
  · simp [List.isPrefixOf]
  · simp [List.isPrefixOf]
  · simp [List.isPrefixOf]
  · simp only [List.cons_append, List.nil_append, List.isPrefixOf, Bool.and_eq_true, beq_iff_eq]
    constructor
    · rintro ⟨ha, hb, hc, -⟩
      rw [← ha, ← hb, ← hc]
      rfl
    · intro hEq
      rw [show "www".toList = ['w', 'w', 'w'] from rfl] at hEq
      simp at hEq
      simp [hEq.1, hEq.2.1, hEq.2.2, List.isPrefixOf]
  · have hd : d ≠ '.' := by
      intro hdd
      exact hx (hdd ▸ (by simp : d ∈ a :: b :: c :: d :: xs))
    constructor
    · intro hpre
      exfalso
      simp only [List.cons_append, List.isPrefixOf, Bool.and_eq_true, beq_iff_eq] at hpre
      exact hd hpre.2.2.2.1.symm
    · intro hEq
      exfalso
      have hlen := congrArg List.length hEq
      simp at hlen

/-- Labels taken from a `splitOnDot` of a stripped lower-cased string are
fixed points of `Char.toLower` character by character. -/
theorem parts_lowfixed (h : Str) :
    ∀ p ∈ splitOnDot (stripWww (toLowerStr h)), ∀ c ∈ p, c.toLower = c := by
  intro p hp c hc
  have h1 : c ∈ stripWww (toLowerStr h) :=
    mem_of_mem_splitOnDot _ p hp c hc
  have h2 : c ∈ toLowerStr h := stripWww_subset _ c h1
  rcases List.mem_map.mp h2 with ⟨a, -, ha⟩
  rw [← ha]
  exact toLower_toLower a

/-- `getBaseDomain` is the identity on any already-collapsed two-label
output `x.y` (with `x`, `y` dot-free lower-case labels). -/
theorem getBaseDomain_two (x y : Str) (hx : '.' ∉ x) (hy : '.' ∉ y)
    (hlow : ∀ c ∈ x ++ '.' :: y, c.toLower = c) :
    getBaseDomain (x ++ '.' :: y) = x ++ '.' :: y := by
  unfold getBaseDomain
  rw [toLowerStr_fixed _ hlow]
  by_cases hw : x = "www".toList
  · have hstrip : stripWww (x ++ '.' :: y) = y := by
      unfold stripWww
      rw [if_pos ((isPrefixOf_www x y hx).mpr hw)]
      subst hw
      rfl
    rw [hstrip, splitOnDot_no_dot y hy]
    simp
  · have hstrip : stripWww (x ++ '.' :: y) = x ++ '.' :: y := by
      unfold stripWww
      rw [if_neg]
      intro hcon
      exact hw ((isPrefixOf_www x y hx).mp hcon)
    rw [hstrip, splitOnDot_append_dot x y hx, splitOnDot_no_dot y hy]
    simp [lastN, joinDots]

/-- `getBaseDomain` is the identity on a three-label output `x.y.z` whose
last two labels form a registered two-part suffix, provided the leading
label is not `www`. -/
theorem getBaseDomain_three (x y z : Str) (hx : '.' ∉ x) (hy : '.' ∉ y)
    (hz : '.' ∉ z) (hw : x ≠ "www".toList)
    (hlow : ∀ c ∈ x ++ '.' :: (y ++ '.' :: z), c.toLower = c)
    (hhit : twoPartTLDs.contains (y ++ '.' :: z) = true) :
    getBaseDomain (x ++ '.' :: (y ++ '.' :: z)) = x ++ '.' :: (y ++ '.' :: z) := by
  unfold getBaseDomain
  rw [toLowerStr_fixed _ hlow]
  have hstrip : stripWww (x ++ '.' :: (y ++ '.' :: z)) = x ++ '.' :: (y ++ '.' :: z) := by
    unfold stripWww
    rw [if_neg]
    intro hcon
    exact hw ((isPrefixOf_www x _ hx).mp hcon)
  rw [hstrip, splitOnDot_append_dot x _ hx, splitOnDot_append_dot y z hy,
    splitOnDot_no_dot z hz]
  have hjoin : joinDots (lastN 2 [x, y, z]) = y ++ '.' :: z := by
    simp [lastN, joinDots]
  rw [if_pos ⟨by simp, by rw [hjoin]; exact hhit⟩]
  simp [lastN, joinDots]

theorem lowfixed_append_dot {x t : Str} (hx : ∀ c ∈ x, c.toLower = c)
    (ht : ∀ c ∈ t, c.toLower = c) : ∀ c ∈ x ++ '.' :: t, c.toLower = c := by
  intro c hc
  rcases List.mem_append.mp hc with h1 | h1
  · exact hx c h1
  · rcases List.mem_cons.mp h1 with h2 | h2
    · rw [h2]; decide
    · exact ht c h2

/-- C4 (amended): registrable-domain extraction is idempotent on every
hostname whose extraction result does not consist of a literal `www` label
followed by one of the fixed two-part suffixes.  (On those excluded
hostnames — see `spec_C4_cex` — a second application strips the `www.` again
and collapses further, so idempotence fails.) -/
theorem spec_C4 (h : Str)
    (hex : ¬ (("www.".toList).isPrefixOf (getBaseDomain h) = true ∧
              twoPartTLDs.contains ((getBaseDomain h).drop 4) = true)) :
    getBaseDomain (getBaseDomain h) = getBaseDomain h := by
  set parts := splitOnDot (stripWww (toLowerStr h)) with hparts
  by_cases hA : 3 ≤ parts.length ∧
      twoPartTLDs.contains (joinDots (lastN 2 parts)) = true
  · have hg : getBaseDomain h = joinDots (lastN 3 parts) := by
      simp only [getBaseDomain]
      rw [← hparts, if_pos hA]
    have hlen3 : (lastN 3 parts).length = 3 := by
      simp only [lastN, List.length_drop]
      omega
    rcases hL : lastN 3 parts with _ | ⟨x, _ | ⟨y, _ | ⟨z, _ | t⟩⟩⟩ <;>
      rw [hL] at hlen3 <;> try simp at hlen3
    have hxmem : x ∈ parts :=
      List.mem_of_mem_drop (show x ∈ parts.drop (parts.length - 3) by rw [show parts.drop (parts.length - 3) = [x, y, z] from hL]; simp)
    have hymem : y ∈ parts :=
      List.mem_of_mem_drop (show y ∈ parts.drop (parts.length - 3) by rw [show parts.drop (parts.length - 3) = [x, y, z] from hL]; simp)
    have hzmem : z ∈ parts :=
      List.mem_of_mem_drop (show z ∈ parts.drop (parts.length - 3) by rw [show parts.drop (parts.length - 3) = [x, y, z] from hL]; simp)
    have hxd : '.' ∉ x := not_dot_mem_splitOnDot _ x (hparts ▸ hxmem)
    have hyd : '.' ∉ y := not_dot_mem_splitOnDot _ y (hparts ▸ hymem)
    have hzd : '.' ∉ z := not_dot_mem_splitOnDot _ z (hparts ▸ hzmem)
    have hxl : ∀ c ∈ x, c.toLower = c := parts_lowfixed h x (hparts ▸ hxmem)
    have hyl : ∀ c ∈ y, c.toLower = c := parts_lowfixed h y (hparts ▸ hymem)
    have hzl : ∀ c ∈ z, c.toLower = c := parts_lowfixed h z (hparts ▸ hzmem)
    have h2 : lastN 2 parts = [y, z] := by
      have hdd : lastN 2 parts = (lastN 3 parts).drop 1 := by
        simp only [lastN, List.drop_drop]
        congr 1
        omega
      rw [hdd, hL]
      rfl
    have hhit : twoPartTLDs.contains (y ++ '.' :: z) = true := by
      have := hA.2
      rw [h2] at this
      exact this
    have hout : joinDots (lastN 3 parts) = x ++ '.' :: (y ++ '.' :: z) := by
      rw [hL]
      rfl
    by_cases hw : x = "www".toList
    · exfalso
      apply hex
      rw [hg, hout, hw]
      constructor
      · simp [List.isPrefixOf]
      · exact hhit
    · rw [hg, hout]
      exact getBaseDomain_three x y z hxd hyd hzd hw
        (lowfixed_append_dot hxl (lowfixed_append_dot hyl hzl)) hhit
  · by_cases hB : 2 ≤ parts.length
    · have hg : getBaseDomain h = joinDots (lastN 2 parts) := by
        simp only [getBaseDomain]
        rw [← hparts, if_neg hA, if_pos hB]
      have hlen2 : (lastN 2 parts).length = 2 := by
        simp only [lastN, List.length_drop]
        omega
      rcases hL : lastN 2 parts with _ | ⟨x, _ | ⟨y, _ | t⟩⟩ <;>
        rw [hL] at hlen2 <;> try simp at hlen2
      have hxmem : x ∈ parts :=
        List.mem_of_mem_drop (show x ∈ parts.drop (parts.length - 2) by rw [show parts.drop (parts.length - 2) = [x, y] from hL]; simp)
      have hymem : y ∈ parts :=
        List.mem_of_mem_drop (show y ∈ parts.drop (parts.length - 2) by rw [show parts.drop (parts.length - 2) = [x, y] from hL]; simp)
      have hxd : '.' ∉ x := not_dot_mem_splitOnDot _ x (hparts ▸ hxmem)
      have hyd : '.' ∉ y := not_dot_mem_splitOnDot _ y (hparts ▸ hymem)
      have hxl : ∀ c ∈ x, c.toLower = c := parts_lowfixed h x (hparts ▸ hxmem)
      have hyl : ∀ c ∈ y, c.toLower = c := parts_lowfixed h y (hparts ▸ hymem)
      have hout : joinDots (lastN 2 parts) = x ++ '.' :: y := by
        rw [hL]
        rfl
      rw [hg, hout]
      exact getBaseDomain_two x y hxd hyd (lowfixed_append_dot hxl hyl)
    · have hg : getBaseDomain h = h := by
        simp only [getBaseDomain]
        rw [← hparts, if_neg hA, if_neg hB]
      rw [hg]
      exact hg

/-- C4 counterexample: the claim as stated (idempotence for every hostname)
fails on `a.www.co.uk`, a hostname of the valid absolute URL
`http://a.www.co.uk/`.  The first application collapses it to `www.co.uk`;
a second application strips the leading `www.` and returns `co.uk`. -/
theorem spec_C4_cex :
    getBaseDomain (getBaseDomain ("a.www.co.uk".toList)) ≠
      getBaseDomain ("a.www.co.uk".toList) := by decide

theorem spec_C4_witness :
    getBaseDomain (getBaseDomain ("www.sub.example.com".toList)) =
      getBaseDomain ("www.sub.example.com".toList) :=
  spec_C4 ("www.sub.example.com".toList) (by decide)

/-- C5: for an arbitrary URL→hostname resolver `gd`, `isThirdParty` returns
`false` whenever either resolved domain is empty, is always `false` on two
equal URLs (parsable or not), and is symmetric in its two arguments. -/
theorem spec_C5 (gd : Str → Str) (a b u : Str) :
    (gd a = [] ∨ gd b = [] → isThirdParty gd a b = false) ∧
    isThirdParty gd u u = false ∧
    isThirdParty gd a b = isThirdParty gd b a := by
  refine ⟨?_, ?_, ?_⟩
  · intro hempty
    simp only [isThirdParty]
    rw [if_pos hempty]
  · simp only [isThirdParty]
    by_cases hu : gd u = []
    · rw [if_pos (Or.inl hu)]
    · rw [if_neg (by tauto)]
      simp
  · simp only [isThirdParty]
    by_cases ha : gd a = []
    · rw [if_pos (Or.inl ha), if_pos (Or.inr ha)]
    · by_cases hb : gd b = []
      · rw [if_pos (Or.inr hb), if_pos (Or.inl hb)]
      · rw [if_neg (by tauto), if_neg (by tauto)]
        by_cases hxy : getBaseDomain (gd a) = getBaseDomain (gd b)
        · rw [hxy]
        · rw [bne_iff_ne.mpr hxy, bne_iff_ne.mpr (Ne.symm hxy)]

theorem spec_C5_witness :
    isThirdParty (fun _ => []) ("a".toList) ("b".toList) = false :=
  (spec_C5 (fun _ => []) ("a".toList) ("b".toList) ("u".toList)).1 (Or.inl rfl)

/-! ## src/shared/tracker-list.ts -/

/-- The curated tracker set (`TRACKER_DOMAINS`).  The source builds a
JavaScript `Set` from this array literal (which silently de-duplicates); we
keep the literal as a list — `contains` gives the same membership test. -/
def TRACKER_DOMAINS : List Str :=
  ["google-analytics.com".toList,
   "googleadservices.com".toList,
   "googlesyndication.com".toList,
   "googletagmanager.com".toList,
   "googletagservices.com".toList,
   "doubleclick.net".toList,
   "googlesyndication.com".toList,
   "googleads.g.doubleclick.net".toList,
   "pagead2.googlesyndication.com".toList,
   "analytics.google.com".toList,
   "facebook.com".toList,
   "facebook.net".toList,
   "fbcdn.net".toList,
   "connect.facebook.net".toList,
   "pixel.facebook.com".toList,
   "ads-twitter.com".toList,
   "analytics.twitter.com".toList,
   "t.co".toList,
   "bat.bing.com".toList,
   "clarity.ms".toList,
   "c.bing.com".toList,
   "amazon-adsystem.com".toList,
   "assoc-amazon.com".toList,
   "demdex.net".toList,
   "omtrdc.net".toList,
   "2o7.net".toList,
   "adnxs.com".toList,
   "adsrvr.org".toList,
   "criteo.com".toList,
   "criteo.net".toList,
   "outbrain.com".toList,
   "taboola.com".toList,
   "pubmatic.com".toList,
   "rubiconproject.com".toList,
   "openx.net".toList,
   "casalemedia.com".toList,
   "advertising.com".toList,
   "bidswitch.net".toList,
   "indexww.com".toList,
   "hotjar.com".toList,
   "mouseflow.com".toList,
   "fullstory.com".toList,
   "crazyegg.com".toList,
   "optimizely.com".toList,
   "mixpanel.com".toList,
   "segment.io".toList,
   "segment.com".toList,
   "amplitude.com".toList,
   "heap.io".toList,
   "heapanalytics.com".toList,
   "newrelic.com".toList,
   "nr-data.net".toList,
   "addthis.com".toList,
   "sharethis.com".toList,
   "addtoany.com".toList,
   "disqus.com".toList,
   "disquscdn.com".toList,
   "bluekai.com".toList,
   "exelator.com".toList,
   "liveramp.com".toList,
   "acxiom.com".toList,
   "tapad.com".toList,
   "rlcdn.com".toList,
   "liadm.com".toList,
   "pippio.com".toList,
   "perfectaudience.com".toList,
   "adroll.com".toList,
   "steelhousemedia.com".toList,
   "adjust.com".toList,
   "appsflyer.com".toList,
   "branch.io".toList,
   "kochava.com".toList,
   "singular.net".toList,
   "logrocket.com".toList,
   "smartlook.com".toList,
   "inspectlet.com".toList,
   "abtasty.com".toList,
   "vwo.com".toList,
   "omniconvert.com".toList,
   "rudderstack.com".toList,
   "mparticle.com".toList,
   "lytics.io".toList,
   "quantserve.com".toList,
   "scorecardresearch.com".toList,
   "imrworldwide.com".toList,
   "chartbeat.com".toList,
   "parsely.com".toList,
   "comscore.com".toList,
   "moatads.com".toList,
   "doubleverify.com".toList,
   "adsafeprotected.com".toList]

/-- `isTrackerDomain` (`src/shared/tracker-list.ts`): normalize (lower-case,
strip a leading `www.`), check exact membership, then walk the proper
parent-domain suffixes `parts.slice(i).join('.')` for `i` from `1` to
`parts.length - 2`. -/
def isTrackerDomain (domain : Str) : Bool :=
  let normalizedDomain := stripWww (toLowerStr domain)
  if TRACKER_DOMAINS.contains normalizedDomain then true
  else
    let parts := splitOnDot normalizedDomain
    (List.range' 1 (parts.length - 2)).any
      (fun i => TRACKER_DOMAINS.contains (joinDots (parts.drop i)))

/-- The match policy of the specification, stated declaratively: the
normalized hostname is in the set, or some proper parent-domain suffix with
at least two labels is. -/
def trackerSpecHolds (domain : Str) : Prop :=
  let nd := stripWww (toLowerStr domain)
  nd ∈ TRACKER_DOMAINS ∨
    ∃ s, s <:+ splitOnDot nd ∧ s ≠ splitOnDot nd ∧ 2 ≤ s.length ∧
      joinDots s ∈ TRACKER_DOMAINS

theorem list_contains_iff {l : List Str} {a : Str} :
    l.contains a = true ↔ a ∈ l := by
  simp [List.contains, List.elem_iff]

/-- C6: `isTrackerDomain` returns `true` iff the normalized hostname
(lower-cased, leading `www.` stripped) is in the static tracker set, or some
proper parent-domain suffix of at least two labels is; in particular
`pagead2.googlesyndication.com` matches, `googlesyndication.com` being in
the set. -/
theorem spec_C6 :
    (∀ d : Str, isTrackerDomain d = true ↔ trackerSpecHolds d) ∧
    isTrackerDomain ("pagead2.googlesyndication.com".toList) = true ∧
    ("googlesyndication.com".toList) ∈ TRACKER_DOMAINS := by
  refine ⟨?_, by decide, by decide⟩
  intro d
  simp only [isTrackerDomain, trackerSpecHolds]
  set nd := stripWww (toLowerStr d) with hnd
  set parts := splitOnDot nd with hpartsdef
  by_cases hc : TRACKER_DOMAINS.contains nd = true
  · rw [if_pos hc]
    simp only [true_iff]
    exact Or.inl (list_contains_iff.mp hc)
  · rw [if_neg hc]
    rw [List.any_eq_true]
    constructor
    · rintro ⟨i, hi, hmemT⟩
      rcases List.mem_range'.mp hi with ⟨j, hj, hij⟩
      have h1i : 1 ≤ i := by omega
      have hin : i ≤ parts.length - 2 := by omega
      have hn3 : 3 ≤ parts.length := by
        rcases Nat.lt_or_ge parts.length 3 with hlt | hge
        · omega
        · exact hge
      refine Or.inr ⟨parts.drop i, List.drop_suffix i parts, ?_, ?_, list_contains_iff.mp hmemT⟩
      · intro hcon
        have := congrArg List.length hcon
        simp only [List.length_drop] at this
        omega
      · simp only [List.length_drop]
        omega
    · intro hOr
      rcases hOr with hmem | ⟨s, hsuf, hne, hlen, hmemT⟩
      · exact absurd (list_contains_iff.mpr hmem) hc
      · have hsl : s.length ≤ parts.length := hsuf.length_le
        have hdropeq : s = parts.drop (parts.length - s.length) :=
          List.suffix_iff_eq_drop.mp hsuf
        have hslt : s.length < parts.length := by
          rcases Nat.lt_or_ge s.length parts.length with hlt | hge
          · exact hlt
          · exfalso
            apply hne
            rw [hdropeq]
            have : parts.length - s.length = 0 := by omega
            rw [this, List.drop_zero]
        refine ⟨parts.length - s.length, List.mem_range'.mpr ⟨parts.length - s.length - 1, by omega, by omega⟩, ?_⟩
      -- joinDots (parts.drop (parts.length - s.length)) = joinDots s
        rw [← hdropeq]
        exact list_contains_iff.mpr hmemT

/-! ## src/shared/pii-detector.ts — validators -/

/-- `parseInt` applied to a single decimal digit character. -/
def charDigitVal (c : Char) : Nat := c.toNat - 48

/-- The digit string of a candidate value: `value.replace(/\D/g, '')`,
with each digit read off as a number. -/
def ccDigits (value : Str) : List Nat :=
  (value.filter Char.isDigit).map charDigitVal

/-- One iteration of the Luhn loop of `isValidCreditCard`
(`src/shared/pii-detector.ts`, lines 204–214): the accumulator carries the
running sum and the `isEven` flag. -/
def luhnStep (acc : Nat × Bool) (d : Nat) : Nat × Bool :=
  let digit := if acc.2 then (if d * 2 > 9 then d * 2 - 9 else d * 2) else d
  (acc.1 + digit, !acc.2)

/-- `isValidCreditCard` (`src/shared/pii-detector.ts`, lines 199–216): strip
non-digits, require 13–19 digits, then run the Luhn loop from the rightmost
digit (`for i = digits.length - 1; i >= 0; i--`, modelled as a fold over the
reversed digit list) and require the sum to be divisible by 10. -/
def isValidCreditCard (value : Str) : Bool :=
  let digits := ccDigits value
  if digits.length < 13 ∨ digits.length > 19 then false
  else ((digits.reverse.foldl luhnStep (0, false)).1 % 10 == 0)

/-- Spec-side doubling: double, and subtract 9 if the result exceeds 9. -/
def luhnDouble (d : Nat) : Nat := if d * 2 > 9 then d * 2 - 9 else d * 2

/-- The Luhn checksum as the specification words it: enumerate the digits
from the rightmost (position 0) and double every second one (odd
positions), then sum. -/
def specLuhnSum (ds : List Nat) : Nat :=
  (ds.reverse.enum.map (fun p => if p.1 % 2 = 1 then luhnDouble p.2 else p.2)).sum

/-- Alternating-flag form of the Luhn sum, bridging the loop and the
enumeration. -/
def altSum : List Nat → Bool → Nat
  | [], _ => 0
  | d :: rest, b => (if b then luhnDouble d else d) + altSum rest (!b)

theorem foldl_luhnStep (l : List Nat) :
    ∀ s b, (l.foldl luhnStep (s, b)).1 = s + altSum l b := by
  induction l with
  | nil => intro s b; simp [altSum]
  | cons d rest ih =>
    intro s b
    simp only [List.foldl_cons, altSum]
    rw [show luhnStep (s, b) d = (s + (if b then luhnDouble d else d), !b) by
      simp [luhnStep, luhnDouble]]
    rw [ih]
    omega

theorem altSum_enumFrom (l : List Nat) :
    ∀ k : Nat, altSum l (decide (k % 2 = 1)) =
      ((List.enumFrom k l).map
        (fun p => if p.1 % 2 = 1 then luhnDouble p.2 else p.2)).sum := by
  induction l with
  | nil => intro k; simp [altSum]
  | cons d rest ih =>
    intro k
    have hflip : (!decide (k % 2 = 1)) = decide ((k + 1) % 2 = 1) := by
      rcases Nat.mod_two_eq_zero_or_one k with hk | hk <;>
        simp [hk, Nat.add_mod, decide_eq_true_eq]
    simp only [altSum, List.enumFrom_cons, List.map_cons, List.sum_cons]
    rw [hflip, ih (k + 1)]
    rcases Nat.mod_two_eq_zero_or_one k with hk | hk <;> simp [hk]

theorem altSum_enum (l : List Nat) :
    altSum l false =
      (l.enum.map (fun p => if p.1 % 2 = 1 then luhnDouble p.2 else p.2)).sum := by
  have := altSum_enumFrom l 0
  simpa using this

/-- C7: the credit-card validator accepts exactly the values whose digit
string has length 13–19 and passes the Luhn checksum (every second digit
from the rightmost doubled, reduced by 9 when above 9, total divisible by
10); `4111111111111111` validates, `4111111111111112` does not. -/
theorem spec_C7 :
    (∀ v : Str, isValidCreditCard v = true ↔
      (13 ≤ (ccDigits v).length ∧ (ccDigits v).length ≤ 19 ∧
        specLuhnSum (ccDigits v) % 10 = 0)) ∧
    isValidCreditCard ("4111111111111111".toList) = true ∧
    isValidCreditCard ("4111111111111112".toList) = false := by
  refine ⟨?_, by decide, by decide⟩
  intro v
  simp only [isValidCreditCard]
  split
  · constructor
    · intro h
      exact absurd h (by simp)
    · intro h
      omega
  · rename_i hrange
    rw [beq_iff_eq, foldl_luhnStep]
    have hsum : altSum (ccDigits v).reverse false = specLuhnSum (ccDigits v) :=
      altSum_enum (ccDigits v).reverse
    rw [hsum]
    constructor
    · intro h
      exact ⟨by omega, by omega, by omega⟩
    · intro h
      omega

/-! ## A small backtracking regex interpreter

`detectPII` and `findContext` drive JavaScript regular expressions.  The
seven `PII_PATTERNS` literals and the `findContext` field regex are
expressed as syntax trees over `RE` below, and `mrun` is a standard
continuation-passing backtracking matcher with JavaScript semantics:
left-to-right alternation, greedy repetition with backtracking, word
boundaries, and one capture group (the only one the source reads). -/

inductive RE where
  | eps
  | cls (p : Char → Bool)
  | seq (a b : RE)
  | alt (a b : RE)
  | rep (a : RE) (lo : Nat) (hi : Option Nat)
  | group (a : RE)
  | wordB

/-- `\w` for the purposes of `\b`. -/
def isWordChar (c : Char) : Bool := c.isAlphanum || c == '_'

def wordBoundary (s : Str) (pos : Nat) : Bool :=
  let before := if pos = 0 then false else
    match (s.drop (pos - 1)).head? with
    | some c => isWordChar c
    | none => false
  let after := match (s.drop pos).head? with
    | some c => isWordChar c
    | none => false
  before != after

/-- Backtracking matcher.  `g1` carries the capture of group 1, `k` the
continuation; the result is the end position and capture of the first
(leftmost-biased, greedy) full match.  `fuel` only forces termination: it is
chosen large enough (`reFuel`) never to run out on the fixed patterns.  The
`p = pos` guard inside unbounded repetition refuses empty iterations, which
JavaScript engines likewise never repeat. -/
def mrun (s : Str) : Nat → RE → Nat → Option (Nat × Nat) →
    (Nat → Option (Nat × Nat) → Option (Nat × Option (Nat × Nat))) →
    Option (Nat × Option (Nat × Nat))
  | 0, _, _, _, _ => none
  | fuel + 1, re, pos, g1, k =>
    match re with
    | .eps => k pos g1
    | .cls p =>
      match (s.drop pos).head? with
      | some c => if p c then k (pos + 1) g1 else none
      | none => none
    | .seq a b => mrun s fuel a pos g1 (fun p g => mrun s fuel b p g k)
    | .alt a b =>
      match mrun s fuel a pos g1 k with
      | some r => some r
      | none => mrun s fuel b pos g1 k
    | .rep a lo hi =>
      match lo with
      | l + 1 =>
        mrun s fuel a pos g1 (fun p g => mrun s fuel (.rep a l (hi.map (· - 1))) p g k)
      | 0 =>
        match hi with
        | some 0 => k pos g1
        | _ =>
          match mrun s fuel a pos g1
              (fun p g => if p = pos then none
                else mrun s fuel (.rep a 0 (hi.map (· - 1))) p g k) with
          | some r => some r
          | none => k pos g1
    | .group a => mrun s fuel a pos g1 (fun p _ => k p (some (pos, p)))
    | .wordB => if wordBoundary s pos then k pos g1 else none

def reFuel (s : Str) : Nat := 1000 * (s.length + 10)

def matchAt (s : Str) (re : RE) (i : Nat) : Option (Nat × Option (Nat × Nat)) :=
  mrun s (reFuel s) re i none (fun p g => some (p, g))

/-- First match at or after `start` — the search step of `exec` with a
global regex whose `lastIndex` is `start`. -/
def firstMatchFrom (s : Str) (re : RE) (start : Nat) :
    Option (Nat × Nat × Option (Nat × Nat)) :=
  (List.range' start (s.length + 1 - start)).findSome?
    (fun i => (matchAt s re i).map (fun r => (i, r.1, r.2)))

def execAllGo (s : Str) (re : RE) : Nat → Nat → List (Nat × Nat × Option (Nat × Nat))
  | 0, _ => []
  | fuel + 1, start =>
    match firstMatchFrom s re start with
    | none => []
    | some (i, e, g) => (i, e, g) :: execAllGo s re fuel (if e = i then e + 1 else e)

/-- All matches of a `/g` regex, in order: the `while ((match = pattern.exec(content)))`
loop of `detectPII`. -/
def execAll (s : Str) (re : RE) : List (Nat × Nat × Option (Nat × Nat)) :=
  execAllGo s re (s.length + 1) 0

def substr (s : Str) (a b : Nat) : Str := (s.drop a).take (b - a)

def isSpaceJS (c : Char) : Bool := c == ' ' || c == '\t' || c == '\n' || c == '\r'

def trimStr (s : Str) : Str :=
  ((s.dropWhile isSpaceJS).reverse.dropWhile isSpaceJS).reverse

def RE.chr (c : Char) : RE := RE.cls (fun d => d == c)

def RE.lit (cs : Str) : RE := cs.foldr (fun c r => RE.seq (RE.chr c) r) RE.eps

/-- A case-insensitive literal (the `/i` flag). -/
def RE.litCI (cs : Str) : RE :=
  cs.foldr (fun c r => RE.seq (RE.cls (fun d => d.toLower == c.toLower)) r) RE.eps

def RE.opt (a : RE) : RE := RE.rep a 0 (some 1)

def RE.star (a : RE) : RE := RE.rep a 0 none

def RE.plus (a : RE) : RE := RE.rep a 1 none

def RE.cat (l : List RE) : RE := l.foldr RE.seq RE.eps

def inRange (lo hi c : Char) : Bool := decide (lo ≤ c ∧ c ≤ hi)

def digitC : RE := RE.cls Char.isDigit

def alphaC : RE := RE.cls Char.isAlpha

def quoteChar : Char := Char.ofNat 39

def quoteC : RE := RE.cls (fun c => c == '"' || c == quoteChar)

def spaceC : RE := RE.cls isSpaceJS

def sepC : RE := RE.cls (fun c => c == '-' || c == '.' || isSpaceJS c)

def colonEqC : RE := RE.cls (fun c => c == ':' || c == '=')

def azUnderC : RE := RE.cls (fun c => inRange 'a' 'z' c.toLower || c == '_')

/-- `/[a-zA-Z0-9._%+-]+@[a-zA-Z0-9.-]+\.[a-zA-Z]{2,}/g` -/
def emailRE : RE := RE.cat
  [RE.plus (RE.cls (fun c => c.isAlphanum || c == '.' || c == '_' || c == '%' || c == '+' || c == '-')),
   RE.chr '@',
   RE.plus (RE.cls (fun c => c.isAlphanum || c == '.' || c == '-')),
   RE.chr '.',
   RE.rep alphaC 2 none]

/-- `/(?:\+?1[-.\s]?)?\(?[0-9]{3}\)?[-.\s]?[0-9]{3}[-.\s]?[0-9]{4}/g` -/
def phoneRE : RE := RE.cat
  [RE.opt (RE.cat [RE.opt (RE.chr '+'), RE.chr '1', RE.opt sepC]),
   RE.opt (RE.chr '('), RE.rep digitC 3 (some 3), RE.opt (RE.chr ')'),
   RE.opt sepC, RE.rep digitC 3 (some 3), RE.opt sepC, RE.rep digitC 4 (some 4)]

/-- `/\b(?:4[0-9]{12}(?:[0-9]{3})?|5[1-5][0-9]{14}|3[47][0-9]{13}|6(?:011|5[0-9]{2})[0-9]{12})\b/g` -/
def ccRE : RE := RE.cat
  [RE.wordB,
   RE.alt (RE.cat [RE.chr '4', RE.rep digitC 12 (some 12), RE.opt (RE.rep digitC 3 (some 3))])
    (RE.alt (RE.cat [RE.chr '5', RE.cls (inRange '1' '5'), RE.rep digitC 14 (some 14)])
     (RE.alt (RE.cat [RE.chr '3', RE.cls (fun c => c == '4' || c == '7'), RE.rep digitC 13 (some 13)])
      (RE.cat [RE.chr '6',
        RE.alt (RE.lit ("011".toList)) (RE.cat [RE.chr '5', RE.rep digitC 2 (some 2)]),
        RE.rep digitC 12 (some 12)]))),
   RE.wordB]

/-- `/\b\d{3}[-\s]?\d{2}[-\s]?\d{4}\b/g` -/
def ssnRE : RE := RE.cat
  [RE.wordB, RE.rep digitC 3 (some 3),
   RE.opt (RE.cls (fun c => c == '-' || isSpaceJS c)),
   RE.rep digitC 2 (some 2),
   RE.opt (RE.cls (fun c => c == '-' || isSpaceJS c)),
   RE.rep digitC 4 (some 4), RE.wordB]

/-- `(?:25[0-5]|2[0-4][0-9]|[01]?[0-9][0-9]?)` -/
def ipOctetRE : RE :=
  RE.alt (RE.cat [RE.lit ("25".toList), RE.cls (inRange '0' '5')])
   (RE.alt (RE.cat [RE.chr '2', RE.cls (inRange '0' '4'), digitC])
    (RE.cat [RE.opt (RE.cls (fun c => c == '0' || c == '1')), digitC, RE.opt digitC]))

/-- `/\b(?:(?:25[0-5]|2[0-4][0-9]|[01]?[0-9][0-9]?)\.){3}(?:25[0-5]|2[0-4][0-9]|[01]?[0-9][0-9]?)\b/g` -/
def ipRE : RE := RE.cat
  [RE.wordB, RE.rep (RE.cat [ipOctetRE, RE.chr '.']) 3 (some 3), ipOctetRE, RE.wordB]

/-- One alternative `stem_?name` of the name-field group (case-insensitive). -/
def nameFieldRE (stem : Str) : RE :=
  RE.cat [RE.litCI stem, RE.opt (RE.chr '_'), RE.litCI ("name".toList)]

/-- `(?:first_?name|last_?name|full_?name|user_?name|display_?name)` -/
def nameFieldsRE : RE :=
  RE.alt (nameFieldRE ("first".toList))
   (RE.alt (nameFieldRE ("last".toList))
    (RE.alt (nameFieldRE ("full".toList))
     (RE.alt (nameFieldRE ("user".toList)) (nameFieldRE ("display".toList)))))

/-- `/(?:["']?(?:first_?name|…)["']?\s*[:=]\s*["']?)([a-zA-Z]{2,}(?:\s+[a-zA-Z]{2,})?)/gi` -/
def nameRE : RE := RE.cat
  [RE.opt quoteC, nameFieldsRE, RE.opt quoteC, RE.star spaceC, colonEqC,
   RE.star spaceC, RE.opt quoteC,
   RE.group (RE.cat [RE.rep alphaC 2 none,
     RE.opt (RE.cat [RE.plus spaceC, RE.rep alphaC 2 none])])]

/-- `(?:address|street|city|zip_?code|postal_?code)` -/
def addrFieldsRE : RE :=
  RE.alt (RE.litCI ("address".toList))
   (RE.alt (RE.litCI ("street".toList))
    (RE.alt (RE.litCI ("city".toList))
     (RE.alt (RE.cat [RE.litCI ("zip".toList), RE.opt (RE.chr '_'), RE.litCI ("code".toList)])
      (RE.cat [RE.litCI ("postal".toList), RE.opt (RE.chr '_'), RE.litCI ("code".toList)]))))

/-- `/(?:["']?(?:address|…)["']?\s*[:=]\s*["']?)([^"'\n,]{5,})/gi` -/
def addressRE : RE := RE.cat
  [RE.opt quoteC, addrFieldsRE, RE.opt quoteC, RE.star spaceC, colonEqC,
   RE.star spaceC, RE.opt quoteC,
   RE.group (RE.rep (RE.cls (fun c => !(c == '"' || c == quoteChar || c == '\n' || c == ','))) 5 none)]

/-! ## src/shared/pii-detector.ts — detector -/

inductive PIIType where
  | email | phone | credit_card | ssn | ip_address | name | address
deriving DecidableEq, Repr

inductive PIILocation where
  | request | response | url
deriving DecidableEq, Repr

structure PIIMatch where
  type : PIIType
  value : Str
  originalValue : Str
  context : Str
  location : PIILocation
deriving DecidableEq, Repr

/-- `PII_PATTERNS` (`src/shared/pii-detector.ts`, lines 31–39), in object
insertion order — the order `Object.entries` yields. -/
def PII_PATTERNS : List (PIIType × RE) :=
  [(PIIType.email, emailRE), (PIIType.phone, phoneRE),
   (PIIType.credit_card, ccRE), (PIIType.ssn, ssnRE),
   (PIIType.ip_address, ipRE), (PIIType.name, nameRE),
   (PIIType.address, addressRE)]

/-- `PII_FIELD_NAMES` (`src/shared/pii-detector.ts`, lines 42–52). -/
def PII_FIELD_NAMES : List Str :=
  ["email".toList, "mail".toList, "e-mail".toList,
   "phone".toList, "telephone".toList, "mobile".toList, "cell".toList,
   "name".toList, "firstname".toList, "first_name".toList, "lastname".toList,
   "last_name".toList, "fullname".toList, "full_name".toList,
   "address".toList, "street".toList, "city".toList, "zip".toList, "postal".toList,
   "ssn".toList, "social".toList,
   "card".toList, "credit".toList, "cvv".toList, "ccv".toList,
   "password".toList, "passwd".toList, "pwd".toList,
   "dob".toList, "birthday".toList, "birth_date".toList,
   "user".toList, "username".toList, "login".toList]

/-- `value.split(sep)`, JavaScript semantics. -/
def splitOnCh (sep : Char) : Str → List Str
  | [] => [[]]
  | c :: rest =>
    match splitOnCh sep rest with
    | [] => [[]]
    | p :: ps => if c = sep then [] :: p :: ps else (c :: p) :: ps

/-- `value.replace(/\d(?=\d{4})/g, '*')`: mask every digit that is
immediately followed by four digit characters. -/
def phoneMask (value : Str) : Str :=
  (List.range value.length).map (fun i =>
    let c := (value.drop i).headD ' '
    let next4 := (value.drop (i + 1)).take 4
    if c.isDigit && next4.length == 4 && next4.all Char.isDigit then '*' else c)

/-- `maskValue` (`src/shared/pii-detector.ts`, lines 57–76). -/
def maskValue (value : Str) (ty : PIIType) : Str :=
  match ty with
  | PIIType.email =>
    let partsAt := splitOnCh '@' value
    let lcl := partsAt.headD []
    let domain := (partsAt.drop 1).headD []
    lcl.take 2 ++ "***@".toList ++ domain
  | PIIType.phone => phoneMask value
  | PIIType.credit_card => "**** **** **** ".toList ++ value.drop (value.length - 4)
  | PIIType.ssn => "***-**-".toList ++ value.drop (value.length - 4)
  | PIIType.ip_address => value
  | _ =>
    if value.length > 4 then
      value.take 2 ++ "***".toList ++ value.drop (value.length - 2)
    else "***".toList

/-- `getPIITypeName` (`src/shared/pii-detector.ts`, lines 81–92). -/
def getPIITypeName : PIIType → Str
  | PIIType.email => "Email Address".toList
  | PIIType.phone => "Phone Number".toList
  | PIIType.credit_card => "Credit Card".toList
  | PIIType.ssn => "Social Security #".toList
  | PIIType.ip_address => "IP Address".toList
  | PIIType.name => "Personal Name".toList
  | PIIType.address => "Physical Address".toList

/-- `getPIIRisk` (`src/shared/pii-detector.ts`, lines 97–108). -/
def getPIIRisk : PIIType → Nat
  | PIIType.credit_card => 10
  | PIIType.ssn => 10
  | PIIType.email => 5
  | PIIType.phone => 5
  | PIIType.address => 4
  | PIIType.name => 2
  | PIIType.ip_address => 1

/-- The field-context regex of `findContext`:
`` ["']?(fieldName[a-z_]*)["']?\s*[:=] `` with the `/i` flag. -/
def fieldCtxRE (fname : Str) : RE :=
  RE.cat [RE.opt quoteC, RE.group (RE.cat [RE.litCI fname, RE.star azUnderC]),
    RE.opt quoteC, RE.star spaceC, colonEqC]

/-- `findContext` (`src/shared/pii-detector.ts`, lines 160–173): look back up
to 50 characters and return the capture of the first field-name regex that
matches, else the empty string. -/
def findContext (content : Str) (matchIndex : Nat) : Str :=
  let lookback := substr content (matchIndex - 50) matchIndex
  (PII_FIELD_NAMES.findSome? (fun fname =>
    match firstMatchFrom lookback (fieldCtxRE fname) 0 with
    | some (_, _, some (a, b)) => some (substr lookback a b)
    | _ => none)).getD []

/-- `isValidSSN` (`src/shared/pii-detector.ts`, lines 178–186). -/
def isValidSSN (value : Str) : Bool :=
  let digits := value.filter (fun c => !(c == '-' || isSpaceJS c))
  if digits.length ≠ 9 then false
  else if (match digits with
    | [] => false
    | c :: rest => c.isDigit && !rest.isEmpty && rest.all (fun d => d == c)) then false
  else if ("000".toList).isPrefixOf digits || ("666".toList).isPrefixOf digits ||
      ("9".toList).isPrefixOf digits then false
  else true

/-- `isValidPhone` (`src/shared/pii-detector.ts`, lines 191–194). -/
def isValidPhone (value : Str) : Bool :=
  let digits := value.filter Char.isDigit
  decide (10 ≤ digits.length) && decide (digits.length ≤ 11)

/-- One step of the inner `while` loop of `detectPII`: process one regex
match.  The accumulator is the emitted match list together with the
`seenValues` set (a list in insertion order).  Note the source adds the
value to `seenValues` before the validators run, so an invalid candidate
still suppresses later duplicates. -/
def detectStep (content : Str) (location : PIILocation) (ty : PIIType)
    (acc : List PIIMatch × List Str) (m : Nat × Nat × Option (Nat × Nat)) :
    List PIIMatch × List Str :=
  let raw := substr content m.1 m.2.1
  let value :=
    if ty = PIIType.name ∨ ty = PIIType.address then
      match m.2.2 with
      | some (a, b) =>
        let gv := substr content a b
        trimStr (if gv.isEmpty then raw else gv)
      | none => trimStr raw
    else raw
  if acc.2.contains (toLowerStr value) then acc
  else
    let seen := acc.2 ++ [toLowerStr value]
    if ty = PIIType.ssn ∧ ¬isValidSSN value = true then (acc.1, seen)
    else if ty = PIIType.phone ∧ ¬isValidPhone value = true then (acc.1, seen)
    else if ty = PIIType.credit_card ∧ ¬isValidCreditCard value = true then (acc.1, seen)
    else
      (acc.1 ++ [{ type := ty, value := maskValue value ty, originalValue := value,
                   context := findContext content m.1, location := location }], seen)

/-- `detectPII` (`src/shared/pii-detector.ts`, lines 113–155): run every
pattern in order over the content, de-duplicating lower-cased values across
the whole call, validating ssn/phone/credit-card candidates, and attaching
the masked value and field context. -/
def detectPII (content : Str) (location : PIILocation) : List PIIMatch :=
  (PII_PATTERNS.foldl
    (fun acc tp => (execAll content tp.2).foldl (detectStep content location tp.1) acc)
    ([], [])).1

/-- JavaScript truthiness of a `string | null`: `null` and `''` are falsy. -/
def jsTruthyStr : Option Str → Bool
  | none => false
  | some s => !s.isEmpty

inductive RiskLevel where
  | none | low | medium | high
deriving DecidableEq, Repr

structure PIIDetectionResult where
  hasPII : Bool
  -- the source field is called `matches`, a reserved word in Lean
  matches' : List PIIMatch
  riskLevel : RiskLevel
  summary : Str
deriving DecidableEq, Repr

/-- `[...new Set(l)]` on strings: de-duplicate preserving first occurrence. -/
def dedupPreserve (l : List Str) : List Str :=
  l.foldl (fun acc s => if acc.contains s then acc else acc ++ [s]) []

/-- `analyzePII` (`src/shared/pii-detector.ts`, lines 221–266): three
independent `detectPII` calls (URL, request body, response body — the body
scans skipped when the body is null or empty), concatenated in that order;
the risk level thresholds the summed per-match severities. -/
def analyzePII (requestBody responseBody : Option Str) (url : Str) :
    PIIDetectionResult :=
  let m1 := detectPII url PIILocation.url
  let m2 := if jsTruthyStr requestBody then
      m1 ++ detectPII (requestBody.getD []) PIILocation.request
    else m1
  let allMatches := if jsTruthyStr responseBody then
      m2 ++ detectPII (responseBody.getD []) PIILocation.response
    else m2
  let totalRisk := (allMatches.map (fun m => getPIIRisk m.type)).sum
  let riskLevel :=
    if totalRisk > 15 then RiskLevel.high
    else if totalRisk > 8 then RiskLevel.medium
    else if totalRisk > 0 then RiskLevel.low
    else RiskLevel.none
  let summary :=
    if allMatches.isEmpty then "No personal data detected".toList
    else "Found: ".toList ++
      joinWith (", ".toList) (dedupPreserve (allMatches.map (fun m => getPIITypeName m.type)))
  { hasPII := !allMatches.isEmpty, matches' := allMatches,
    riskLevel := riskLevel, summary := summary }

/-- C8: on the body `{"email":"jane.doe@example.com"}` (any location tag)
`detectPII` yields exactly one match: an email, masked `ja***@example.com`,
original value `jane.doe@example.com`, context `email`. -/
theorem spec_C8 (loc : PIILocation) :
    detectPII ("\x7b\"email\":\"jane.doe@example.com\"\x7d".toList) loc =
      [{ type := PIIType.email, value := "ja***@example.com".toList,
         originalValue := "jane.doe@example.com".toList,
         context := "email".toList, location := loc }] := by
  cases loc <;> decide

/-- A request/response body used to exhibit the per-location duplication of
`analyzePII`. -/
def c10Body : Str := "email=jane.doe@example.com".toList

/-- C10: de-duplication is per `detectPII` call only — `analyzePII` is the
concatenation of three independent scans (URL, request, response), so a
value present in two locations is reported once per location, and its
severity weight enters the aggregated risk sum once per report: the same
email in both bodies yields two matches and risk `medium` (5 + 5 = 10 > 8),
while a single occurrence yields `low`. -/
theorem spec_C10 :
    (∀ req res url : Str, req ≠ [] → res ≠ [] →
      (analyzePII (some req) (some res) url).matches' =
        detectPII url PIILocation.url ++ detectPII req PIILocation.request ++
          detectPII res PIILocation.response) ∧
    (∀ rb sb url,
      (analyzePII rb sb url).riskLevel =
        (if (((analyzePII rb sb url).matches').map (fun m => getPIIRisk m.type)).sum > 15
          then RiskLevel.high
         else if (((analyzePII rb sb url).matches').map (fun m => getPIIRisk m.type)).sum > 8
          then RiskLevel.medium
         else if (((analyzePII rb sb url).matches').map (fun m => getPIIRisk m.type)).sum > 0
          then RiskLevel.low
         else RiskLevel.none)) ∧
    ((analyzePII (some c10Body) (some c10Body) ("x".toList)).matches'.map
        (fun m => (m.originalValue, m.location)) =
      [("jane.doe@example.com".toList, PIILocation.request),
       ("jane.doe@example.com".toList, PIILocation.response)]) ∧
    (analyzePII (some c10Body) (some c10Body) ("x".toList)).riskLevel = RiskLevel.medium ∧
    (analyzePII (some c10Body) none ("x".toList)).riskLevel = RiskLevel.low := by
  refine ⟨?_, ?_, by decide, by decide, by decide⟩
  · intro req res url hreq hres
    rcases req with _ | ⟨c, t⟩
    · exact absurd rfl hreq
    rcases res with _ | ⟨d, u⟩
    · exact absurd rfl hres
    simp [analyzePII, jsTruthyStr]
  · intro rb sb url
    simp only [analyzePII]

theorem spec_C10_witness :
    (analyzePII (some ("a".toList)) (some ("b".toList)) ("x".toList)).matches' =
      detectPII ("x".toList) PIILocation.url ++
        detectPII ("a".toList) PIILocation.request ++
        detectPII ("b".toList) PIILocation.response :=
  spec_C10.1 ("a".toList) ("b".toList) ("x".toList) (by decide) (by decide)

/-! ## src/shared/cookie-explanations.ts -/

inductive CookieCategory where
  | essential | functional | analytics | advertising | tracking | unknown
deriving DecidableEq, Repr

inductive CookieRisk where
  | low | medium | high
deriving DecidableEq, Repr

structure CookieExplanation where
  name : Str
  category : CookieCategory
  description : Str
  risk : CookieRisk
deriving DecidableEq, Repr

/-- `s.includes(t)` for JavaScript strings. -/
def includesStr (s t : Str) : Bool :=
  (List.range (s.length + 1)).any (fun i => t.isPrefixOf (s.drop i))

/-- `KNOWN_COOKIES` (`src/shared/cookie-explanations.ts`, lines 14–224) as an
association list in object insertion order — the order `Object.entries`
yields and the substring scan walks. -/
def KNOWN_COOKIES : List (Str × CookieExplanation) :=
  [("sessionid".toList,
    { name := "Session ID".toList, category := CookieCategory.essential,
      description := "Keeps you logged in as you browse. Essential for the website to work.".toList,
      risk := CookieRisk.low }),
   ("session".toList,
    { name := "Session".toList, category := CookieCategory.essential,
      description := "Maintains your session while browsing. Needed for the site to function.".toList,
      risk := CookieRisk.low }),
   ("auth".toList,
    { name := "Authentication".toList, category := CookieCategory.essential,
      description := ("Proves you".toList ++ [quoteChar] ++ "re logged in. Essential for accessing your account.".toList),
      risk := CookieRisk.low }),
   ("token".toList,
    { name := "Auth Token".toList, category := CookieCategory.essential,
      description := "Security token for authentication. Keeps your session secure.".toList,
      risk := CookieRisk.low }),
   ("csrf".toList,
    { name := "CSRF Protection".toList, category := CookieCategory.essential,
      description := "Security feature to prevent malicious form submissions.".toList,
      risk := CookieRisk.low }),
   ("xsrf".toList,
    { name := "XSRF Token".toList, category := CookieCategory.essential,
      description := "Security token to prevent cross-site request forgery attacks.".toList,
      risk := CookieRisk.low }),
   ("locale".toList,
    { name := "Language".toList, category := CookieCategory.functional,
      description := "Remembers your language preference.".toList,
      risk := CookieRisk.low }),
   ("lang".toList,
    { name := "Language".toList, category := CookieCategory.functional,
      description := "Stores your language setting.".toList,
      risk := CookieRisk.low }),
   ("theme".toList,
    { name := "Theme".toList, category := CookieCategory.functional,
      description := "Remembers light/dark mode preference.".toList,
      risk := CookieRisk.low }),
   ("timezone".toList,
    { name := "Timezone".toList, category := CookieCategory.functional,
      description := "Stores your timezone for displaying times correctly.".toList,
      risk := CookieRisk.low }),
   ("consent".toList,
    { name := "Cookie Consent".toList, category := CookieCategory.functional,
      description := "Remembers your cookie consent choice.".toList,
      risk := CookieRisk.low }),
   ("_ga".toList,
    { name := "Google Analytics".toList, category := CookieCategory.analytics,
      description := "Tracks your visits across pages. Used to analyze website traffic.".toList,
      risk := CookieRisk.medium }),
   ("_gid".toList,
    { name := "Google Analytics (Daily)".toList, category := CookieCategory.analytics,
      description := "Google Analytics cookie that tracks you for 24 hours.".toList,
      risk := CookieRisk.medium }),
   ("_gat".toList,
    { name := "Google Analytics (Throttle)".toList, category := CookieCategory.analytics,
      description := "Used to throttle request rate to Google Analytics.".toList,
      risk := CookieRisk.medium }),
   ("__utma".toList,
    { name := "Google Analytics (Legacy)".toList, category := CookieCategory.analytics,
      description := "Older Google Analytics cookie for tracking visitors.".toList,
      risk := CookieRisk.medium }),
   ("__utmb".toList,
    { name := "Google Analytics (Session)".toList, category := CookieCategory.analytics,
      description := "Tracks how long you spend on the site.".toList,
      risk := CookieRisk.medium }),
   ("__utmc".toList,
    { name := "Google Analytics (Session)".toList, category := CookieCategory.analytics,
      description := "Legacy session tracking cookie.".toList,
      risk := CookieRisk.medium }),
   ("__utmz".toList,
    { name := "Google Analytics (Source)".toList, category := CookieCategory.analytics,
      description := "Tracks how you arrived at the site (search, link, etc).".toList,
      risk := CookieRisk.medium }),
   ("_fbp".toList,
    { name := "Facebook Pixel".toList, category := CookieCategory.advertising,
      description := "Facebook tracking to show you targeted ads on Facebook.".toList,
      risk := CookieRisk.high }),
   ("fr".toList,
    { name := "Facebook Advertising".toList, category := CookieCategory.advertising,
      description := "Facebook ad delivery and measurement.".toList,
      risk := CookieRisk.high }),
   ("_fbc".toList,
    { name := "Facebook Click ID".toList, category := CookieCategory.advertising,
      description := "Tracks when you click a Facebook ad.".toList,
      risk := CookieRisk.high }),
   ("IDE".toList,
    { name := "Google DoubleClick".toList, category := CookieCategory.advertising,
      description := "Used by Google to show personalized ads across websites.".toList,
      risk := CookieRisk.high }),
   ("__gads".toList,
    { name := "Google Ads".toList, category := CookieCategory.advertising,
      description := "Google advertising cookie for ad serving.".toList,
      risk := CookieRisk.high }),
   ("DSID".toList,
    { name := "Google DoubleClick".toList, category := CookieCategory.advertising,
      description := "Links your activity on other sites with Google ads.".toList,
      risk := CookieRisk.high }),
   ("_gcl_au".toList,
    { name := "Google Conversion".toList, category := CookieCategory.advertising,
      description := "Tracks conversions for Google Ads campaigns.".toList,
      risk := CookieRisk.high }),
   ("_tt_".toList,
    { name := "TikTok Pixel".toList, category := CookieCategory.tracking,
      description := "TikTok tracking for ad targeting.".toList,
      risk := CookieRisk.high }),
   ("_pinterest_".toList,
    { name := "Pinterest".toList, category := CookieCategory.tracking,
      description := "Pinterest tracking for ads and analytics.".toList,
      risk := CookieRisk.high }),
   ("_li_".toList,
    { name := "LinkedIn".toList, category := CookieCategory.tracking,
      description := "LinkedIn tracking for ads and insights.".toList,
      risk := CookieRisk.high }),
   ("hubspot".toList,
    { name := "HubSpot".toList, category := CookieCategory.analytics,
      description := "Marketing analytics and tracking.".toList,
      risk := CookieRisk.medium }),
   ("intercom".toList,
    { name := "Intercom".toList, category := CookieCategory.functional,
      description := "Customer support chat widget.".toList,
      risk := CookieRisk.low }),
   ("amplitude".toList,
    { name := "Amplitude".toList, category := CookieCategory.analytics,
      description := "Product analytics tracking.".toList,
      risk := CookieRisk.medium }),
   ("mixpanel".toList,
    { name := "Mixpanel".toList, category := CookieCategory.analytics,
      description := "Product analytics and user tracking.".toList,
      risk := CookieRisk.medium }),
   ("segment".toList,
    { name := "Segment".toList, category := CookieCategory.analytics,
      description := "Data routing to multiple analytics services.".toList,
      risk := CookieRisk.medium })]

/-- `getCookieExplanation` (`src/shared/cookie-explanations.ts`,
lines 261–320): exact table hit on the lower-cased name, then the first
table entry whose (lower-cased) key is a substring of the name, then the
keyword heuristics, otherwise an unknown/medium fallback carrying the
original name. -/
def getCookieExplanation (cookieName : Str) : CookieExplanation :=
  let lowerName := toLowerStr cookieName
  match KNOWN_COOKIES.lookup lowerName with
  | some e => e
  | none =>
    match KNOWN_COOKIES.find? (fun p => includesStr lowerName (toLowerStr p.1)) with
    | some p => p.2
    | none =>
      if includesStr lowerName ("session".toList) || includesStr lowerName ("sess".toList) then
        { name := "Session Cookie".toList, category := CookieCategory.essential,
          description := "Maintains your browsing session.".toList, risk := CookieRisk.low }
      else if includesStr lowerName ("auth".toList) || includesStr lowerName ("login".toList) ||
          includesStr lowerName ("user".toList) then
        { name := "Authentication".toList, category := CookieCategory.essential,
          description := "Related to user authentication.".toList, risk := CookieRisk.low }
      else if includesStr lowerName ("analytics".toList) || includesStr lowerName ("stat".toList) ||
          includesStr lowerName ("track".toList) then
        { name := "Analytics/Tracking".toList, category := CookieCategory.analytics,
          description := "Used for analytics or user tracking.".toList, risk := CookieRisk.medium }
      else if includesStr lowerName ("ad".toList) || includesStr lowerName ("campaign".toList) ||
          includesStr lowerName ("promo".toList) then
        { name := "Advertising".toList, category := CookieCategory.advertising,
          description := "Likely used for advertising purposes.".toList, risk := CookieRisk.high }
      else
        { name := cookieName, category := CookieCategory.unknown,
          description := "Unknown purpose. May be functional or tracking.".toList,
          risk := CookieRisk.medium }

/-- The keyword families of the heuristic fallback, in scan order. -/
def heuristicKeywords : List Str :=
  ["session".toList, "sess".toList, "auth".toList, "login".toList, "user".toList,
   "analytics".toList, "stat".toList, "track".toList,
   "ad".toList, "campaign".toList, "promo".toList]

/-- C9: the cookie classifier resolves by exact table match, then first
case-insensitive substring match over the table, then keyword heuristics,
otherwise unknown/medium; `_ga` classifies analytics/medium and `sessionid`
essential/low. -/
theorem spec_C9 :
    (∀ n e, KNOWN_COOKIES.lookup (toLowerStr n) = some e →
      getCookieExplanation n = e) ∧
    (∀ n p, KNOWN_COOKIES.lookup (toLowerStr n) = none →
      KNOWN_COOKIES.find? (fun q => includesStr (toLowerStr n) (toLowerStr q.1)) = some p →
      getCookieExplanation n = p.2) ∧
    (∀ n, KNOWN_COOKIES.lookup (toLowerStr n) = none →
      KNOWN_COOKIES.find? (fun q => includesStr (toLowerStr n) (toLowerStr q.1)) = none →
      (∀ kw ∈ heuristicKeywords, includesStr (toLowerStr n) kw = false) →
      (getCookieExplanation n).category = CookieCategory.unknown ∧
      (getCookieExplanation n).risk = CookieRisk.medium) ∧
    (getCookieExplanation ("_ga".toList)).category = CookieCategory.analytics ∧
    (getCookieExplanation ("_ga".toList)).risk = CookieRisk.medium ∧
    (getCookieExplanation ("sessionid".toList)).category = CookieCategory.essential ∧
    (getCookieExplanation ("sessionid".toList)).risk = CookieRisk.low := by
  refine ⟨?_, ?_, ?_, by decide, by decide, by decide, by decide⟩
  · intro n e h
    simp only [getCookieExplanation]
    rw [h]
  · intro n p h1 h2
    simp only [getCookieExplanation]
    rw [h1, h2]
  · intro n h1 h2 hkw
    simp only [getCookieExplanation]
    rw [h1, h2]
    rw [show includesStr (toLowerStr n) ("session".toList) = false from
      hkw _ (by simp [heuristicKeywords])]
    rw [show includesStr (toLowerStr n) ("sess".toList) = false from
      hkw _ (by simp [heuristicKeywords])]
    rw [show includesStr (toLowerStr n) ("auth".toList) = false from
      hkw _ (by simp [heuristicKeywords])]
    rw [show includesStr (toLowerStr n) ("login".toList) = false from
      hkw _ (by simp [heuristicKeywords])]
    rw [show includesStr (toLowerStr n) ("user".toList) = false from
      hkw _ (by simp [heuristicKeywords])]
    rw [show includesStr (toLowerStr n) ("analytics".toList) = false from
      hkw _ (by simp [heuristicKeywords])]
    rw [show includesStr (toLowerStr n) ("stat".toList) = false from
      hkw _ (by simp [heuristicKeywords])]
    rw [show includesStr (toLowerStr n) ("track".toList) = false from
      hkw _ (by simp [heuristicKeywords])]
    rw [show includesStr (toLowerStr n) ("ad".toList) = false from
      hkw _ (by simp [heuristicKeywords])]
    rw [show includesStr (toLowerStr n) ("campaign".toList) = false from
      hkw _ (by simp [heuristicKeywords])]
    rw [show includesStr (toLowerStr n) ("promo".toList) = false from
      hkw _ (by simp [heuristicKeywords])]
    simp

theorem spec_C9_witness :
    getCookieExplanation ("_ga".toList) =
      { name := "Google Analytics".toList, category := CookieCategory.analytics,
        description := "Tracks your visits across pages. Used to analyze website traffic.".toList,
        risk := CookieRisk.medium } :=
  spec_C9.1 ("_ga".toList)
    { name := "Google Analytics".toList, category := CookieCategory.analytics,
      description := "Tracks your visits across pages. Used to analyze website traffic.".toList,
      risk := CookieRisk.medium } (by decide)

/-! ## src/utils/privacy-score.ts -/

inductive PrivacyGrade where
  | A | B | C | D | F
deriving DecidableEq, Repr

structure ScoreBreakdown where
  trackerPenalty : Nat
  thirdPartyPenalty : Nat
  domainPenalty : Nat
deriving DecidableEq, Repr

structure PrivacyScoreResult where
  grade : PrivacyGrade
  score : Int
  breakdown : ScoreBreakdown
  summary : Str
  details : List Str
deriving DecidableEq, Repr

structure ScoreInput where
  totalRequests : Nat
  firstPartyCount : Nat
  thirdPartyCount : Nat
  trackerCount : Nat
  trackerDomains : List Str
  uniqueDomains : List Str
deriving DecidableEq, Repr

/-- Decimal rendering of a number, for the template literals. -/
def natToStr (n : Nat) : Str := Nat.toDigits 10 n

def intToStr (i : Int) : Str :=
  if i < 0 then '-' :: Nat.toDigits 10 i.natAbs else Nat.toDigits 10 i.toNat

/-- `Math.round` on the (non-negative) ratios the calculator rounds. -/
def roundJS (q : ℚ) : Int := (q + 1/2).floor

/-- `scoreToGrade` (`src/utils/privacy-score.ts`, lines 123–129). -/
def scoreToGrade (score : Int) : PrivacyGrade :=
  if score ≥ 90 then PrivacyGrade.A
  else if score ≥ 75 then PrivacyGrade.B
  else if score ≥ 60 then PrivacyGrade.C
  else if score ≥ 40 then PrivacyGrade.D
  else PrivacyGrade.F

/-- `generateSummary` (`src/utils/privacy-score.ts`, lines 131–146). -/
def generateSummary : PrivacyGrade → Str
  | PrivacyGrade.A => "Excellent privacy! Minimal tracking and external requests.".toList
  | PrivacyGrade.B => "Good privacy. Some third-party services but limited tracking.".toList
  | PrivacyGrade.C => "Moderate privacy concerns. Consider using a content blocker.".toList
  | PrivacyGrade.D => "Poor privacy. Significant tracking and data sharing detected.".toList
  | PrivacyGrade.F => "Very poor privacy. Heavy tracking and surveillance detected.".toList

/-- `calculatePrivacyScore` (`src/utils/privacy-score.ts`, lines 37–121).
Counts are naturals, the two ratios are exact rationals, the running score
is an integer clamped to [0, 100] at the end.  The `details` lines are
accumulated in source order: tracker, third-party, domain count, and the
positive fallback. -/
def calculatePrivacyScore (stats : ScoreInput) : PrivacyScoreResult :=
  let trackerRatio : ℚ :=
    if stats.totalRequests > 0 then (stats.trackerCount : ℚ) / (stats.totalRequests : ℚ) else 0
  let trackerPenalty : Nat :=
    if stats.trackerCount > 0 then
      Nat.min (stats.trackerCount * 8) 40 + (if trackerRatio > 1/10 then 10 else 0)
    else 0
  let details0 : List Str :=
    if stats.trackerCount > 0 then
      [natToStr stats.trackerCount ++ " tracker".toList ++
        (if stats.trackerCount > 1 then "s".toList else []) ++ " detected (".toList ++
        joinWith (", ".toList) (stats.trackerDomains.take 3) ++
        (if stats.trackerDomains.length > 3 then "...".toList else []) ++ ")".toList]
    else []
  let thirdPartyRatio : ℚ := (stats.thirdPartyCount : ℚ) / (stats.totalRequests : ℚ)
  let thirdPartyPenalty : Nat :=
    if stats.totalRequests > 0 then
      if thirdPartyRatio > 7/10 then 30
      else if thirdPartyRatio > 5/10 then 20
      else if thirdPartyRatio > 3/10 then 10
      else 0
    else 0
  let details1 : List Str :=
    if stats.totalRequests > 0 then
      if thirdPartyRatio > 7/10 then
        details0 ++ ["High third-party ratio: ".toList ++ intToStr (roundJS (thirdPartyRatio * 100)) ++
          "% of requests go to external servers".toList]
      else if thirdPartyRatio > 5/10 then
        details0 ++ ["Moderate third-party usage: ".toList ++ intToStr (roundJS (thirdPartyRatio * 100)) ++
          "% of requests are external".toList]
      else if thirdPartyRatio > 3/10 then
        details0 ++ ["Some third-party requests: ".toList ++ intToStr (roundJS (thirdPartyRatio * 100)) ++
          "% external".toList]
      else details0
    else details0
  let domainCount := stats.uniqueDomains.length
  let domainPenalty : Nat :=
    if domainCount > 30 then 20
    else if domainCount > 20 then 15
    else if domainCount > 10 then 8
    else if domainCount > 5 then 3
    else 0
  let details2 : List Str :=
    if domainCount > 30 then
      details1 ++ ["Contacts ".toList ++ natToStr domainCount ++ " different servers - very high".toList]
    else if domainCount > 20 then
      details1 ++ ["Contacts ".toList ++ natToStr domainCount ++ " different servers - high".toList]
    else if domainCount > 10 then
      details1 ++ ["Contacts ".toList ++ natToStr domainCount ++ " different servers".toList]
    else details1
  let score : Int :=
    max 0 (min 100 (100 - (trackerPenalty : Int) - (thirdPartyPenalty : Int) - (domainPenalty : Int)))
  let grade := scoreToGrade score
  let summary := generateSummary grade
  let details :=
    if score ≥ 80 ∧ details2 = [] then
      details2 ++ ["This site has good privacy practices".toList]
    else details2
  { grade := grade, score := score,
    breakdown := { trackerPenalty := trackerPenalty,
                   thirdPartyPenalty := thirdPartyPenalty,
                   domainPenalty := domainPenalty },
    summary := summary, details := details }

/-- C1: for 20 requests of which 15 third-party and 3 trackers, with 12
unique domains, the calculator reports tracker penalty 34 (3·8 = 24 plus 10
since 3/20 > 0.1), third-party penalty 30 (0.75 > 0.7), and domain penalty
8 (12 > 10); the score is 100 − 34 − 30 − 8 = 28 and the grade is F. -/
theorem spec_C1 (td ud : List Str) (h3 : td.length = 3) (h12 : ud.length = 12) :
    (calculatePrivacyScore ⟨20, 5, 15, 3, td, ud⟩).breakdown.trackerPenalty = 34 ∧
    (calculatePrivacyScore ⟨20, 5, 15, 3, td, ud⟩).breakdown.thirdPartyPenalty = 30 ∧
    (calculatePrivacyScore ⟨20, 5, 15, 3, td, ud⟩).breakdown.domainPenalty = 8 ∧
    (calculatePrivacyScore ⟨20, 5, 15, 3, td, ud⟩).score = 28 ∧
    (calculatePrivacyScore ⟨20, 5, 15, 3, td, ud⟩).grade = PrivacyGrade.F := by
  simp only [calculatePrivacyScore, scoreToGrade, h12]
  norm_num

def c1td : List Str := ["d1".toList, "d2".toList, "d3".toList]

def c1ud : List Str :=
  ["u1".toList, "u2".toList, "u3".toList, "u4".toList, "u5".toList, "u6".toList,
   "u7".toList, "u8".toList, "u9".toList, "u10".toList, "u11".toList, "u12".toList]

theorem spec_C1_witness :
    (calculatePrivacyScore ⟨20, 5, 15, 3, c1td, c1ud⟩).score = 28 ∧
    (calculatePrivacyScore ⟨20, 5, 15, 3, c1td, c1ud⟩).grade = PrivacyGrade.F :=
  ⟨(spec_C1 c1td c1ud rfl rfl).2.2.2.1, (spec_C1 c1td c1ud rfl rfl).2.2.2.2⟩

/-! ## src/background/service-worker.ts — request lifecycle aggregator -/

structure Header where
  name : Str
  value : Str
deriving DecidableEq, Repr

structure RequestTiming where
  startTime : Int
  endTime : Option Int
  duration : Option Int
deriving DecidableEq, Repr

/-- `NetworkRequest` (`src/shared/types.ts`, lines 28–45).  Timestamps and
sizes are integers; optional fields are `Option`. -/
structure NetworkRequest where
  id : Str
  url : Str
  method : Str
  type : Str
  status : Int
  statusText : Str
  domain : Str
  isThirdParty : Bool
  isTracker : Bool
  timing : RequestTiming
  requestHeaders : Option (List Header)
  responseHeaders : Option (List Header)
  requestBody : Option Str
  responseBody : Option Str
  size : Option Int
  mimeType : Option Str
deriving DecidableEq, Repr

structure TabStats where
  totalRequests : Nat
  firstPartyCount : Nat
  thirdPartyCount : Nat
  trackerCount : Nat
  trackerDomains : List Str
  uniqueDomains : List Str
deriving DecidableEq, Repr

structure TabData where
  requests : List NetworkRequest
  stats : TabStats
  pageUrl : Str
  pageDomain : Str
deriving DecidableEq, Repr

structure Classification where
  isThirdParty : Bool
  isTracker : Bool
  domain : Str
deriving DecidableEq, Repr

/-- `classifyRequest` (`src/shared/utils.ts`, lines 58–71), parameterized by
the URL→hostname resolver `gd` like `isThirdParty`. -/
def classifyRequest (gd : Str → Str) (requestUrl pageUrl : Str) : Classification :=
  { isThirdParty := isThirdParty gd requestUrl pageUrl,
    isTracker := isTrackerDomain (gd requestUrl),
    domain := gd requestUrl }

/-- `Set.add` on a JavaScript string set, in insertion order. -/
def insertSet (l : List Str) (d : Str) : List Str :=
  if l.contains d then l else l ++ [d]

structure StatsAcc where
  domains : List Str
  trackerDomains : List Str
  firstParty : Nat
  thirdParty : Nat
  trackers : Nat
deriving DecidableEq, Repr

/-- The body of the `for (const request of data.requests)` loop of
`updateStats` (`src/background/service-worker.ts`, lines 41–54). -/
def statsStep (acc : StatsAcc) (r : NetworkRequest) : StatsAcc :=
  let acc1 := { acc with domains := insertSet acc.domains r.domain }
  let acc2 := if r.isTracker then
      { acc1 with trackers := acc1.trackers + 1,
                  trackerDomains := insertSet acc1.trackerDomains r.domain }
    else acc1
  if r.isThirdParty then { acc2 with thirdParty := acc2.thirdParty + 1 }
  else { acc2 with firstParty := acc2.firstParty + 1 }

/-- The statistics `updateStats` derives from a record list
(`src/background/service-worker.ts`, lines 34–64). -/
def computeStats (requests : List NetworkRequest) : TabStats :=
  let acc := requests.foldl statsStep
    { domains := [], trackerDomains := [], firstParty := 0, thirdParty := 0, trackers := 0 }
  { totalRequests := requests.length, firstPartyCount := acc.firstParty,
    thirdPartyCount := acc.thirdParty, trackerCount := acc.trackers,
    trackerDomains := acc.trackerDomains, uniqueDomains := acc.domains }

def updateStats (data : TabData) : TabData :=
  { data with stats := computeStats data.requests }

/-- `initTabData` (`src/background/service-worker.ts`, lines 13–29) minus the
map insertion, which the callers below perform functionally. -/
def initTabData (gd : Str → Str) (pageUrl : Str) : TabData :=
  { requests := [],
    stats := { totalRequests := 0, firstPartyCount := 0, thirdPartyCount := 0,
               trackerCount := 0, trackerDomains := [], uniqueDomains := [] },
    pageUrl := pageUrl, pageDomain := gd pageUrl }

/-- The two `Map`s of the service worker, as functions. -/
structure AggState where
  tabData : Int → Option TabData
  tabUrls : Int → Option Str

def initialAggState : AggState :=
  { tabData := fun _ => none, tabUrls := fun _ => none }

def mapSet {α : Type} (m : Int → Option α) (k : Int) (v : α) : Int → Option α :=
  fun t => if t = k then some v else m t

def mapDel {α : Type} (m : Int → Option α) (k : Int) : Int → Option α :=
  fun t => if t = k then none else m t

/-- `data.requests.find(r => r.id === requestId)` followed by in-place
mutation of the found record: rewrite the first matching element only. -/
def updateFirst (p : NetworkRequest → Bool) (f : NetworkRequest → NetworkRequest) :
    List NetworkRequest → List NetworkRequest
  | [] => []
  | r :: rest => if p r then f r :: rest else r :: updateFirst p f rest

def statusTexts : List (Int × Str) :=
  [(200, "OK".toList), (201, "Created".toList), (204, "No Content".toList),
   (301, "Moved Permanently".toList), (302, "Found".toList), (304, "Not Modified".toList),
   (400, "Bad Request".toList), (401, "Unauthorized".toList), (403, "Forbidden".toList),
   (404, "Not Found".toList), (500, "Internal Server Error".toList),
   (502, "Bad Gateway".toList), (503, "Service Unavailable".toList)]

/-- `getStatusText` (`src/background/service-worker.ts`, lines 206–224). -/
def getStatusText (statusCode : Int) : Str := (statusTexts.lookup statusCode).getD []

def digitsPrefixVal (s : Str) : Option Nat :=
  let ds := s.takeWhile Char.isDigit
  if ds.isEmpty then none
  else some (ds.foldl (fun acc c => acc * 10 + (c.toNat - 48)) 0)

/-- `parseInt(s, 10)`; `none` stands for `NaN`. -/
def parseIntJS (s : Str) : Option Int :=
  let t := s.dropWhile isSpaceJS
  match t with
  | '-' :: rest => (digitsPrefixVal rest).map (fun n => -(n : Int))
  | '+' :: rest => (digitsPrefixVal rest).map (fun n => (n : Int))
  | _ => (digitsPrefixVal t).map (fun n => (n : Int))

/-- `handleRequest` (`src/background/service-worker.ts`, lines 86–124).
`genId` stands in for the nondeterministic `generateRequestId()` used when
the event carries a falsy (empty) request id. -/
def handleRequest (gd : Str → Str) (genId : Str) (st : AggState)
    (tabId : Int) (requestId url method rtype : Str) (timeStamp : Int) : AggState :=
  if tabId < 0 then st
  else
    let pageUrl := (st.tabUrls tabId).getD []
    let data := (st.tabData tabId).getD (initTabData gd pageUrl)
    let classification := classifyRequest gd url pageUrl
    let request : NetworkRequest :=
      { id := if requestId = [] then genId else requestId,
        url := url, method := method, type := rtype,
        status := 0, statusText := [],
        domain := classification.domain,
        isThirdParty := classification.isThirdParty,
        isTracker := classification.isTracker,
        timing := { startTime := timeStamp, endTime := none, duration := none },
        requestHeaders := none, responseHeaders := none,
        requestBody := none, responseBody := none, size := none, mimeType := none }
    let newData := updateStats { data with requests := data.requests ++ [request] }
    { st with tabData := mapSet st.tabData tabId newData }

/-- `handleCompleted` (`src/background/service-worker.ts`, lines 129–147). -/
def handleCompleted (st : AggState) (tabId : Int) (requestId : Str)
    (statusCode timeStamp : Int) : AggState :=
  if tabId < 0 then st
  else
    match st.tabData tabId with
    | none => st
    | some data =>
      let newReqs := updateFirst (fun r => r.id == requestId)
        (fun r =>
          { r with status := statusCode, statusText := getStatusText statusCode,
                   timing := { r.timing with
                               endTime := some timeStamp,
                               duration := some (timeStamp - r.timing.startTime) } })
        data.requests
      { st with tabData := mapSet st.tabData tabId { data with requests := newReqs } }

/-- `handleRequestHeaders` (`src/background/service-worker.ts`,
lines 152–169); header values may be absent (`h.value || ''`). -/
def handleRequestHeaders (st : AggState) (tabId : Int) (requestId : Str)
    (requestHeaders : Option (List (Str × Option Str))) : AggState :=
  if tabId < 0 ∨ requestHeaders = none then st
  else
    match st.tabData tabId with
    | none => st
    | some data =>
      let hs := (requestHeaders.getD []).map
        (fun h => ({ name := h.1, value := h.2.getD [] } : Header))
      let newReqs := updateFirst (fun r => r.id == requestId)
        (fun r => { r with requestHeaders := some hs }) data.requests
      { st with tabData := mapSet st.tabData tabId { data with requests := newReqs } }

/-- The body of the header scan inside `handleResponseHeaders`:
`content-type` assigns `mimeType` (even when the value is absent) and
`content-length` assigns `parseInt(header.value || '0', 10)`. -/
def respHeaderStep (acc : NetworkRequest) (h : Str × Option Str) : NetworkRequest :=
  let acc1 := if toLowerStr h.1 = "content-type".toList then
      { acc with mimeType := h.2 } else acc
  if toLowerStr h.1 = "content-length".toList then
    { acc1 with size := parseIntJS (h.2.getD ("0".toList)) }
  else acc1

/-- `handleResponseHeaders` (`src/background/service-worker.ts`,
lines 174–201): attach the headers, then scan them for `content-type`
(assigned even when the value is absent) and `content-length`. -/
def handleResponseHeaders (st : AggState) (tabId : Int) (requestId : Str)
    (responseHeaders : Option (List (Str × Option Str))) : AggState :=
  if tabId < 0 ∨ responseHeaders = none then st
  else
    match st.tabData tabId with
    | none => st
    | some data =>
      let raw := responseHeaders.getD []
      let hs := raw.map (fun h => ({ name := h.1, value := h.2.getD [] } : Header))
      let newReqs := updateFirst (fun r => r.id == requestId)
        (fun r => raw.foldl respHeaderStep { r with responseHeaders := some hs })
        data.requests
      { st with tabData := mapSet st.tabData tabId { data with requests := newReqs } }

/-- The `chrome.tabs.onUpdated` loading branch
(`src/background/service-worker.ts`, lines 250–257). -/
def handleNavigated (gd : Str → Str) (st : AggState) (tabId : Int) (url : Str) : AggState :=
  { tabData := mapSet st.tabData tabId (initTabData gd url),
    tabUrls := mapSet st.tabUrls tabId url }

/-- The `CLEAR_TAB` message branch (`src/background/service-worker.ts`,
lines 286–297). -/
def handleClearTab (gd : Str → Str) (st : AggState) (tabId : Int) : AggState :=
  let pageUrl := (st.tabUrls tabId).getD []
  { st with tabData := mapSet st.tabData tabId (initTabData gd pageUrl) }

/-- The aggregator events of the network-observation feed and the UI
messages that mutate session state. -/
inductive AggEvent where
  | beginR (tabId : Int) (requestId url method rtype : Str) (timeStamp : Int)
  | completedR (tabId : Int) (requestId : Str) (statusCode timeStamp : Int)
  | sendHeaders (tabId : Int) (requestId : Str)
      (requestHeaders : Option (List (Str × Option Str)))
  | headersReceived (tabId : Int) (requestId : Str)
      (responseHeaders : Option (List (Str × Option Str)))
  | navigated (tabId : Int) (url : Str)
  | tabRemoved (tabId : Int)
  | clearTab (tabId : Int)

def stepEvent (gd : Str → Str) (genId : Str) (st : AggState) : AggEvent → AggState
  | AggEvent.beginR tabId requestId url method rtype ts =>
      handleRequest gd genId st tabId requestId url method rtype ts
  | AggEvent.completedR tabId requestId sc ts => handleCompleted st tabId requestId sc ts
  | AggEvent.sendHeaders tabId requestId hs => handleRequestHeaders st tabId requestId hs
  | AggEvent.headersReceived tabId requestId hs => handleResponseHeaders st tabId requestId hs
  | AggEvent.navigated tabId url => handleNavigated gd st tabId url
  | AggEvent.tabRemoved tabId =>
      { tabData := mapDel st.tabData tabId, tabUrls := mapDel st.tabUrls tabId }
  | AggEvent.clearTab tabId => handleClearTab gd st tabId

def runEvents (gd : Str → Str) (genId : Str) (es : List AggEvent) : AggState :=
  es.foldl (stepEvent gd genId) initialAggState

theorem updateFirst_no_match (p : NetworkRequest → Bool) (f : NetworkRequest → NetworkRequest)
    (l : List NetworkRequest) (h : ∀ r ∈ l, p r = false) :
    updateFirst p f l = l := by
  induction l with
  | nil => rfl
  | cons r rest ih =>
    simp only [updateFirst, h r (List.mem_cons_self r rest), Bool.false_eq_true, if_false]
    rw [ih (fun x hx => h x (List.mem_cons_of_mem r hx))]

theorem statsStep_congr (acc : StatsAcc) (r r' : NetworkRequest)
    (hd : r'.domain = r.domain) (ht : r'.isTracker = r.isTracker)
    (h3 : r'.isThirdParty = r.isThirdParty) :
    statsStep acc r' = statsStep acc r := by
  simp only [statsStep, hd, ht, h3]

theorem computeStats_updateFirst (p : NetworkRequest → Bool)
    (f : NetworkRequest → NetworkRequest) (l : List NetworkRequest)
    (hf : ∀ r, (f r).domain = r.domain ∧ (f r).isTracker = r.isTracker ∧
      (f r).isThirdParty = r.isThirdParty) :
    computeStats (updateFirst p f l) = computeStats l := by
  have hlen : ∀ l : List NetworkRequest, (updateFirst p f l).length = l.length := by
    intro l
    induction l with
    | nil => rfl
    | cons r rest ih =>
      simp only [updateFirst]
      split <;> simp [ih]
  have hfold : ∀ (l : List NetworkRequest) (acc : StatsAcc),
      (updateFirst p f l).foldl statsStep acc = l.foldl statsStep acc := by
    intro l
    induction l with
    | nil => intro acc; rfl
    | cons r rest ih =>
      intro acc
      simp only [updateFirst]
      split
      · simp only [List.foldl_cons]
        rw [statsStep_congr acc r (f r) (hf r).1 (hf r).2.1 (hf r).2.2]
      · simp only [List.foldl_cons]
        exact ih _
  simp only [computeStats, hfold, hlen]

theorem respHeaderStep_foldl_fields (raw : List (Str × Option Str)) :
    ∀ r0 : NetworkRequest,
      (raw.foldl respHeaderStep r0).domain = r0.domain ∧
      (raw.foldl respHeaderStep r0).isTracker = r0.isTracker ∧
      (raw.foldl respHeaderStep r0).isThirdParty = r0.isThirdParty := by
  induction raw with
  | nil => intro r0; exact ⟨rfl, rfl, rfl⟩
  | cons h rest ih =>
    intro r0
    simp only [List.foldl_cons]
    have hrest := ih (respHeaderStep r0 h)
    have hstep : (respHeaderStep r0 h).domain = r0.domain ∧
        (respHeaderStep r0 h).isTracker = r0.isTracker ∧
        (respHeaderStep r0 h).isThirdParty = r0.isThirdParty := by
      simp only [respHeaderStep]
      split <;> split <;> exact ⟨rfl, rfl, rfl⟩
    exact ⟨by rw [hrest.1, hstep.1], by rw [hrest.2.1, hstep.2.1],
      by rw [hrest.2.2, hstep.2.2]⟩

/-- The cache-consistency invariant: every stored `TabStats` is the one
re-derived from the session's record list. -/
def StatsInv (st : AggState) : Prop :=
  ∀ tid d, st.tabData tid = some d → d.stats = computeStats d.requests

theorem stepEvent_statsInv (gd : Str → Str) (genId : Str) (st : AggState) (e : AggEvent)
    (hInv : StatsInv st) : StatsInv (stepEvent gd genId st e) := by
  cases e with
  | beginR tabId requestId url method rtype ts =>
    simp only [stepEvent, handleRequest]
    split
    · exact hInv
    · intro tid d hd
      simp only [mapSet] at hd
      split at hd
      · injection hd with hd2
        rw [← hd2]
        simp [updateStats]
      · exact hInv tid d hd
  | completedR tabId requestId sc ts =>
    simp only [stepEvent, handleCompleted]
    split
    · exact hInv
    · split
      · exact hInv
      · rename_i data heq
        intro tid d hd
        simp only [mapSet] at hd
        split at hd
        · injection hd with hd2
          rw [← hd2]
          show data.stats = computeStats (updateFirst _ _ data.requests)
          rw [hInv tabId data heq, computeStats_updateFirst]
          intro r
          exact ⟨rfl, rfl, rfl⟩
        · exact hInv tid d hd
  | sendHeaders tabId requestId hs =>
    simp only [stepEvent, handleRequestHeaders]
    split
    · exact hInv
    · split
      · exact hInv
      · rename_i data heq
        intro tid d hd
        simp only [mapSet] at hd
        split at hd
        · injection hd with hd2
          rw [← hd2]
          show data.stats = computeStats (updateFirst _ _ data.requests)
          rw [hInv tabId data heq, computeStats_updateFirst]
          intro r
          exact ⟨rfl, rfl, rfl⟩
        · exact hInv tid d hd
  | headersReceived tabId requestId hs =>
    simp only [stepEvent, handleResponseHeaders]
    split
    · exact hInv
    · split
      · exact hInv
      · rename_i data heq
        intro tid d hd
        simp only [mapSet] at hd
        split at hd
        · injection hd with hd2
          rw [← hd2]
          show data.stats = computeStats (updateFirst _ _ data.requests)
          rw [hInv tabId data heq, computeStats_updateFirst]
          intro r
          exact respHeaderStep_foldl_fields _ _
        · exact hInv tid d hd
  | navigated tabId url =>
    intro tid d hd
    simp only [stepEvent, handleNavigated, mapSet] at hd
    split at hd
    · injection hd with hd2
      rw [← hd2]
      rfl
    · exact hInv tid d hd
  | tabRemoved tabId =>
    intro tid d hd
    simp only [stepEvent, mapDel] at hd
    split at hd
    · cases hd
    · exact hInv tid d hd
  | clearTab tabId =>
    intro tid d hd
    simp only [stepEvent, handleClearTab, mapSet] at hd
    split at hd
    · injection hd with hd2
      rw [← hd2]
      rfl
    · exact hInv tid d hd

theorem foldl_statsInv (gd : Str → Str) (genId : Str) (es : List AggEvent) :
    ∀ st : AggState, StatsInv st → StatsInv (es.foldl (stepEvent gd genId) st) := by
  induction es with
  | nil => intro st hst; exact hst
  | cons e rest ih =>
    intro st hst
    simp only [List.foldl_cons]
    exact ih (stepEvent gd genId st e) (stepEvent_statsInv gd genId st e hst)

/-- C2: after any sequence of aggregator events, the stored `TabStats` of
every live tab session equals the statistics re-derived from its record
list — the stats cache can never drift from the records. -/
theorem spec_C2 (gd : Str → Str) (genId : Str) (es : List AggEvent) (tid : Int)
    (d : TabData) (h : (runEvents gd genId es).tabData tid = some d) :
    d.stats = computeStats d.requests := by
  have hinit : StatsInv initialAggState := by
    intro tid d hd
    exact Option.noConfusion hd
  exact foldl_statsInv gd genId es initialAggState hinit tid d h

theorem mapSet_self (st : AggState) (tabId : Int) (data : TabData)
    (h : st.tabData tabId = some data) : mapSet st.tabData tabId data = st.tabData := by
  funext t
  simp only [mapSet]
  split
  · rename_i ht
    rw [ht, h]
  · rfl

theorem updateFirst_id_of_no_match (requestId : Str)
    (f : NetworkRequest → NetworkRequest) (l : List NetworkRequest)
    (h : ∀ r ∈ l, r.id ≠ requestId) :
    updateFirst (fun r => r.id == requestId) f l = l :=
  updateFirst_no_match _ f l (fun r hr => beq_eq_false_iff_ne.mpr (h r hr))

/-- C3: a completion, request-headers or response-headers event whose
request identifier matches no record of the session leaves the aggregator
state completely unchanged — no record is created and every existing record
keeps its value. -/
theorem spec_C3 (st : AggState) (tabId : Int) (requestId : Str) (sc ts : Int)
    (reqHs respHs : Option (List (Str × Option Str)))
    (hno : ∀ d, st.tabData tabId = some d → ∀ r ∈ d.requests, r.id ≠ requestId) :
    handleCompleted st tabId requestId sc ts = st ∧
    handleRequestHeaders st tabId requestId reqHs = st ∧
    handleResponseHeaders st tabId requestId respHs = st := by
  refine ⟨?_, ?_, ?_⟩
  · simp only [handleCompleted]
    split
    · rfl
    · split
      · rfl
      · rename_i data hdata
        rw [updateFirst_id_of_no_match requestId _ data.requests (hno data hdata)]
        rw [show ({ data with requests := data.requests } : TabData) = data from rfl]
        rw [mapSet_self st tabId data hdata]
  · simp only [handleRequestHeaders]
    split
    · rfl
    · split
      · rfl
      · rename_i data hdata
        rw [updateFirst_id_of_no_match requestId _ data.requests (hno data hdata)]
        rw [show ({ data with requests := data.requests } : TabData) = data from rfl]
        rw [mapSet_self st tabId data hdata]
  · simp only [handleResponseHeaders]
    split
    · rfl
    · split
      · rfl
      · rename_i data hdata
        rw [updateFirst_id_of_no_match requestId _ data.requests (hno data hdata)]
        rw [show ({ data with requests := data.requests } : TabData) = data from rfl]
        rw [mapSet_self st tabId data hdata]

def gdW : Str → Str := fun s => s

def wEvents : List AggEvent :=
  [AggEvent.beginR 1 ("r1".toList) ("a.co".toList) ("GET".toList) ("script".toList) 5]

def wState : AggState := runEvents gdW ("g1".toList) wEvents

theorem spec_C2_witness :
    ((wState.tabData 1).getD (initTabData gdW [])).stats =
      computeStats ((wState.tabData 1).getD (initTabData gdW [])).requests :=
  spec_C2 gdW ("g1".toList) wEvents 1
    ((wState.tabData 1).getD (initTabData gdW [])) rfl

theorem spec_C3_witness :
    handleCompleted wState 1 ("zz".toList) 200 9 = wState ∧
    handleRequestHeaders wState 1 ("zz".toList)
      (some [("X".toList, some ("1".toList))]) = wState ∧
    handleResponseHeaders wState 1 ("zz".toList)
      (some [("X".toList, some ("1".toList))]) = wState :=
  spec_C3 wState 1 ("zz".toList) 200 9
    (some [("X".toList, some ("1".toList))])
    (some [("X".toList, some ("1".toList))])
    (by
      intro d hd
      have h3 : d = (wState.tabData 1).getD (initTabData gdW []) := by
        rw [hd]
        rfl
      rw [h3]
      decide)
